import Mathlib

/-!
Verification of the MongoDB MCP server (`src/index.js`): a shallow embedding
of the identifier normalizer (`parseObjectId`, `processMongoDocument`), the
tool catalog (`tools`), and the `tools/call` dispatcher, together with
theorems settling the specified properties.

JavaScript values are modelled by the mutually inductive `JsValue` /
`JsArr` / `JsObj` (null, scalars, strings, native ObjectId identifiers,
arrays, string-keyed objects).  The MongoDB driver is out of scope of the
repository, so its surface is modelled as an oracle (`MongoInterface`);
each dispatcher run records the driver operations it invoked in a trace.
-/

namespace MongoMcp

mutual

inductive JsValue where
  | null : JsValue
  | bool (b : Bool) : JsValue
  | num (n : Int) : JsValue
  | str (s : String) : JsValue
  | oid (hex : String) : JsValue
  | arr (elems : JsArr) : JsValue
  | obj (fields : JsObj) : JsValue
deriving DecidableEq

inductive JsArr where
  | nil : JsArr
  | cons (head : JsValue) (tail : JsArr) : JsArr
deriving DecidableEq

inductive JsObj where
  | nil : JsObj
  | cons (key : String) (value : JsValue) (tail : JsObj) : JsObj
deriving DecidableEq

end

/-- Modelled from the spec: the external driver's `ObjectId.isValid` test on a
string, which the spec fixes as "exact format: 24 lowercase hexadecimal
characters for the reference database".  The driver library is not part of
this repository; this predicate is its specified behaviour on strings. -/
def isValidObjectIdString (s : String) : Bool :=
  s.length == 24 && s.data.all (fun c => c.isDigit || (Char.ofNat 97 ≤ c && c ≤ Char.ofNat 102))

/-- `parseObjectId` from `src/index.js`: coerce a 24-hex string to a native
ObjectId, return every other value unchanged. -/
def parseObjectId : JsValue → JsValue
  | .str s => if isValidObjectIdString s then .oid s else .str s
  | v => v

/-- The JavaScript test `typeof value === "object"`: true for `null`, arrays,
plain objects and ObjectId instances; false for booleans, numbers, strings. -/
def isObjectType : JsValue → Bool
  | .null => true
  | .arr _ => true
  | .obj _ => true
  | .oid _ => true
  | _ => false

/-- JavaScript's `s.endsWith(pat)`, modelled on the character list. -/
def strEndsWith (s pat : String) : Bool :=
  pat.data.isSuffixOf s.data

/-- The key test of `processMongoDocument`: `key === "_id" || key.endsWith("Id")`. -/
def isIdKey (k : String) : Bool :=
  k == "_id" || strEndsWith k "Id"

mutual

/-- `processMongoDocument` from `src/index.js`: recursively walk a value; at a
key equal to `"_id"` or ending in `"Id"` apply `parseObjectId`; recurse into
other object-typed values; pass scalars through.  A bare ObjectId reached by
the `typeof === "object"` branch is rebuilt from `Object.entries`, which is
empty for the driver's ObjectId (its bytes live under a non-enumerable
symbol key), yielding an empty plain object. -/
def processMongoDocument : JsValue → JsValue
  | .null => .null
  | .arr xs => .arr (processMongoArr xs)
  | .obj fs => .obj (processMongoObj fs)
  | .oid _ => .obj .nil
  | v => v

/-- Elementwise `obj.map(processMongoDocument)` on an array. -/
def processMongoArr : JsArr → JsArr
  | .nil => .nil
  | .cons v t => .cons (processMongoDocument v) (processMongoArr t)

/-- The `for (const [key, value] of Object.entries(obj))` loop body. -/
def processMongoObj : JsObj → JsObj
  | .nil => .nil
  | .cons k v t =>
      .cons k
        (if isIdKey k then parseObjectId v
         else if isObjectType v then processMongoDocument v
         else v)
        (processMongoObj t)

end

/-! zod validation (`DatabaseSchema`/`CollectionSchema` = `z.string().min(1)`,
`DocumentSchema` = `z.record(z.any())`).  zod is an external library; its
`ZodError.message` is the 2-space pretty-printed JSON of the issue list,
reproduced here literally for the two schema shapes the server uses. -/

/-- zod's `getParsedType` name for each value. -/
def jsParsedType : JsValue → String
  | .null => "null"
  | .bool _ => "boolean"
  | .num _ => "number"
  | .str _ => "string"
  | .oid _ => "object"
  | .arr _ => "array"
  | .obj _ => "object"

/-- `ZodError.message` for a single `invalid_type` issue with empty path. -/
def zodInvalidTypeMessage (expected received msg : String) : String :=
  "[\n  \x7b\n    \"code\": \"invalid_type\",\n    \"expected\": \"" ++ expected ++
    "\",\n    \"received\": \"" ++ received ++
    "\",\n    \"path\": [],\n    \"message\": \"" ++ msg ++ "\"\n  \x7d\n]"

/-- `ZodError.message` for the `too_small` issue `z.string().min(1)` raises on `""`. -/
def zodTooSmallStringMessage : String :=
  "[\n  \x7b\n    \"code\": \"too_small\",\n    \"minimum\": 1,\n    \"type\": \"string\",\n    \"inclusive\": true,\n    \"exact\": false,\n    \"path\": [],\n    \"message\": \"String must contain at least 1 character(s)\"\n  \x7d\n]"

/-- `z.string().min(1).parse(v)` (`DatabaseSchema` / `CollectionSchema`):
`none` models the JavaScript `undefined` of a missing argument. -/
def parseNonEmptyString : Option JsValue → Except String String
  | none => .error (zodInvalidTypeMessage "string" "undefined" "Required")
  | some (.str s) =>
      if 1 ≤ s.length then .ok s else .error zodTooSmallStringMessage
  | some v =>
      .error (zodInvalidTypeMessage "string" (jsParsedType v)
        ("Expected string, received " ++ jsParsedType v))

/-- `z.record(z.any()).parse(v)` (`DocumentSchema`): accepts exactly plain objects. -/
def parseRecord : Option JsValue → Except String JsObj
  | none => .error (zodInvalidTypeMessage "object" "undefined" "Required")
  | some (.obj fs) => .ok fs
  | some v =>
      .error (zodInvalidTypeMessage "object" (jsParsedType v)
        ("Expected object, received " ++ jsParsedType v))

/-! Result serialization.  The server renders success payloads with
`JSON.stringify(x, null, 2)`; the serializer below is modelled up to
whitespace (compact rather than 2-space-indented), which no theorem depends
on.  An ObjectId serializes as its hex string (`ObjectId.prototype.toJSON`). -/

mutual

def stringifyJs : JsValue → String
  | .null => "null"
  | .bool b => cond b "true" "false"
  | .num n => toString n
  | .str s => "\"" ++ s ++ "\""
  | .oid s => "\"" ++ s ++ "\""
  | .arr xs => "[" ++ stringifyArr xs ++ "]"
  | .obj fs => "\x7b" ++ stringifyObj fs ++ "\x7d"

def stringifyArr : JsArr → String
  | .nil => ""
  | .cons v .nil => stringifyJs v
  | .cons v t => stringifyJs v ++ "," ++ stringifyArr t

def stringifyObj : JsObj → String
  | .nil => ""
  | .cons k v .nil => "\"" ++ k ++ "\":" ++ stringifyJs v
  | .cons k v t => "\"" ++ k ++ "\":" ++ stringifyJs v ++ "," ++ stringifyObj t

end

mutual

/-- JavaScript `.toString()` as the server applies it to `insertedId` /
`upsertedId`: an ObjectId yields its hex string. -/
def jsToString : JsValue → String
  | .null => "null"
  | .bool b => cond b "true" "false"
  | .num n => toString n
  | .str s => s
  | .oid s => s
  | .arr xs => jsToStringArr xs
  | .obj _ => "[object Object]"

def jsToStringArr : JsArr → String
  | .nil => ""
  | .cons v .nil => jsToString v
  | .cons v t => jsToString v ++ "," ++ jsToStringArr t

end

/-- JavaScript truthiness, deciding `updateMany ? ... : ...`. -/
def truthy : JsValue → Bool
  | .null => false
  | .bool b => b
  | .num n => n != 0
  | .str s => s.length != 0
  | _ => true

/-- Property lookup on an argument object; `none` models `undefined`. -/
def getArg : JsObj → String → Option JsValue
  | .nil, _ => none
  | .cons k v t, key => if k == key then some v else getArg t key

/-! The MongoDB driver boundary: an oracle giving each operation's outcome,
and a trace type recording which operations the dispatcher invoked. -/

structure InsertOneResult where
  acknowledged : Bool
  insertedId : JsValue
deriving DecidableEq

structure UpdateResult where
  acknowledged : Bool
  matchedCount : Int
  modifiedCount : Int
  upsertedId : Option JsValue
deriving DecidableEq

structure MongoInterface where
  listDatabases : Except String JsValue
  listCollections : String → Except String JsValue
  find : String → String → JsValue → JsValue → JsValue → Except String JsValue
  insertOne : String → String → JsValue → Except String InsertOneResult
  updateOne : String → String → JsValue → JsValue → Except String UpdateResult
  updateMany : String → String → JsValue → JsValue → Except String UpdateResult
  countDocuments : String → String → JsValue → Except String Int

inductive DbOp where
  | listDatabases : DbOp
  | listCollections (database : String) : DbOp
  | find (database collection : String) (query skipCount limitCount : JsValue) : DbOp
  | insertOne (database collection : String) (doc : JsValue) : DbOp
  | updateOne (database collection : String) (filter update : JsValue) : DbOp
  | updateMany (database collection : String) (filter update : JsValue) : DbOp
  | countDocuments (database collection : String) (filter : JsValue) : DbOp
deriving DecidableEq

/-! Response envelopes. -/

structure ContentItem where
  type : String
  text : String
deriving DecidableEq

structure ResponseEnvelope where
  content : List ContentItem
  isError : Option Bool
deriving DecidableEq

/-- A success envelope: one text item, no `isError` field. -/
def textEnvelope (s : String) : ResponseEnvelope :=
  ⟨[⟨"text", s⟩], none⟩

/-- The catch-block envelope: `\x7b content: [..."Error: " + message...], isError: true \x7d`. -/
def errorEnvelope (msg : String) : ResponseEnvelope :=
  ⟨[⟨"text", "Error: " ++ msg⟩], some true⟩

/-- Outcome of the `try` body: a returned envelope or a thrown message,
each with the driver operations invoked up to that point. -/
inductive ToolOutcome where
  | ok (env : ResponseEnvelope) (trace : List DbOp) : ToolOutcome
  | err (msg : String) (trace : List DbOp) : ToolOutcome
deriving DecidableEq

/-- The `switch (name)` body of the `tools/call` handler (inside its `try`).
Absent `filter`/`update` arguments are JavaScript `undefined`, which
`processMongoDocument` returns unchanged; they are modelled as `null`,
which short-circuits identically. -/
def callToolBody (name : String) (args : JsObj) (mi : MongoInterface) : ToolOutcome :=
  match name with
  | "list_databases" =>
    (match mi.listDatabases with
     | .ok dbs => .ok (textEnvelope (stringifyJs dbs)) [.listDatabases]
     | .error m => .err m [.listDatabases])
  | "list_collections" =>
    (match parseNonEmptyString (getArg args "database") with
     | .error m => .err m []
     | .ok database =>
       match mi.listCollections database with
       | .ok cols => .ok (textEnvelope (stringifyJs cols)) [.listCollections database]
       | .error m => .err m [.listCollections database])
  | "find_documents" =>
    (match parseNonEmptyString (getArg args "database") with
     | .error m => .err m []
     | .ok database =>
       match parseNonEmptyString (getArg args "collection") with
       | .error m => .err m []
       | .ok collection =>
         let query := (getArg args "query").getD (.obj .nil)
         let limitArg := (getArg args "limit").getD (.num 10)
         let skipArg := (getArg args "skip").getD (.num 0)
         let processedQuery := processMongoDocument query
         match mi.find database collection processedQuery skipArg limitArg with
         | .ok docs =>
             .ok (textEnvelope (stringifyJs docs))
               [.find database collection processedQuery skipArg limitArg]
         | .error m => .err m [.find database collection processedQuery skipArg limitArg])
  | "insert_document" =>
    (match parseNonEmptyString (getArg args "database") with
     | .error m => .err m []
     | .ok database =>
       match parseNonEmptyString (getArg args "collection") with
       | .error m => .err m []
       | .ok collection =>
         match parseRecord (getArg args "document") with
         | .error m => .err m []
         | .ok docFields =>
           let processedDoc := processMongoDocument (.obj docFields)
           match mi.insertOne database collection processedDoc with
           | .ok r =>
               .ok (textEnvelope (stringifyJs (.obj (.cons "acknowledged" (.bool r.acknowledged)
                     (.cons "insertedId" (.str (jsToString r.insertedId)) .nil)))))
                 [.insertOne database collection processedDoc]
           | .error m => .err m [.insertOne database collection processedDoc])
  | "update_documents" =>
    (match parseNonEmptyString (getArg args "database") with
     | .error m => .err m []
     | .ok database =>
       match parseNonEmptyString (getArg args "collection") with
       | .error m => .err m []
       | .ok collection =>
         let filterVal := (getArg args "filter").getD .null
         let updateVal := (getArg args "update").getD .null
         let many := truthy ((getArg args "updateMany").getD (.bool false))
         let processedFilter := processMongoDocument filterVal
         let processedUpdate := processMongoDocument updateVal
         let result :=
           if many then mi.updateMany database collection processedFilter processedUpdate
           else mi.updateOne database collection processedFilter processedUpdate
         let op : DbOp :=
           if many then .updateMany database collection processedFilter processedUpdate
           else .updateOne database collection processedFilter processedUpdate
         match result with
         | .ok r =>
             .ok (textEnvelope (stringifyJs (.obj (.cons "acknowledged" (.bool r.acknowledged)
                   (.cons "matchedCount" (.num r.matchedCount)
                   (.cons "modifiedCount" (.num r.modifiedCount)
                   (match r.upsertedId with
                    | some u => .cons "upsertedId" (.str (jsToString u)) .nil
                    | none => .nil))))))) [op]
         | .error m => .err m [op])
  | "count_documents" =>
    (match parseNonEmptyString (getArg args "database") with
     | .error m => .err m []
     | .ok database =>
       match parseNonEmptyString (getArg args "collection") with
       | .error m => .err m []
       | .ok collection =>
         let filterVal := (getArg args "filter").getD (.obj .nil)
         let processedFilter := processMongoDocument filterVal
         match mi.countDocuments database collection processedFilter with
         | .ok n =>
             .ok (textEnvelope (stringifyJs (.obj (.cons "count" (.num n) .nil))))
               [.countDocuments database collection processedFilter]
         | .error m => .err m [.countDocuments database collection processedFilter])
  | other => .err ("Unknown tool: " ++ other) []

/-! Connection state and the full handler. -/

/-- The module-level `isConnected` flag and `mongoClient` handle (`hasClient`
is `mongoClient !== null`). -/
structure ConnState where
  isConnected : Bool
  hasClient : Bool
deriving DecidableEq

/-- The guard of `ensureConnection`: it throws unless this holds. -/
def ensureConnectionOk (st : ConnState) : Bool :=
  st.isConnected && st.hasClient

def notConnectedMessage : String := "MongoDB connection not established"

/-- What the transport layer receives: a returned envelope (with the trace of
driver operations), or an exception raised past the handler. -/
inductive CallResult where
  | envelope (env : ResponseEnvelope) (trace : List DbOp) : CallResult
  | raised (msg : String) : CallResult
deriving DecidableEq

/-- The `tools/call` handler: `ensureConnection()` runs before the `try`, so
its throw is raised to the caller; everything thrown inside the `try` is
caught and wrapped by `errorEnvelope`. -/
def callTool (name : String) (args : JsObj) (mi : MongoInterface) (st : ConnState) : CallResult :=
  if ensureConnectionOk st then
    match callToolBody name args mi with
    | .ok env t => .envelope env t
    | .err m t => .envelope (errorEnvelope m) t
  else .raised notConnectedMessage

/-- The driver operations a call invoked (none when the handler raised). -/
def CallResult.opsInvoked : CallResult → List DbOp
  | .envelope _ t => t
  | .raised _ => []

/-! The static tool catalog (`tools`, served by `tools/list`). -/

structure ToolDescriptor where
  name : String
  description : String
  properties : List String
  required : List String
deriving DecidableEq

def tools : List ToolDescriptor :=
  [⟨"list_databases", "List all available databases", [], []⟩,
   ⟨"list_collections", "List all collections in a database",
     ["database"], ["database"]⟩,
   ⟨"find_documents", "Find documents in a collection with optional query filter",
     ["database", "collection", "query", "limit", "skip"], ["database", "collection"]⟩,
   ⟨"insert_document", "Insert a single document into a collection",
     ["database", "collection", "document"], ["database", "collection", "document"]⟩,
   ⟨"update_documents", "Update documents in a collection",
     ["database", "collection", "filter", "update", "updateMany"],
     ["database", "collection", "filter", "update"]⟩,
   ⟨"count_documents", "Count documents in a collection with optional filter",
     ["database", "collection", "filter"], ["database", "collection"]⟩]

/-- Naive substring search on character lists (used to state that an error
message does not mention a parameter name). -/
def charsHaveInfix (hay pat : List Char) : Bool :=
  match hay with
  | [] => pat.isEmpty
  | _ :: t => pat.isPrefixOf hay || charsHaveInfix t pat

/-- A concrete driver oracle on which every operation succeeds, used to
instantiate universally quantified theorems at explicit inputs. -/
def sampleInterface : MongoInterface where
  listDatabases := .ok (.arr .nil)
  listCollections := fun _ => .ok (.arr .nil)
  find := fun _ _ _ _ _ => .ok (.arr .nil)
  insertOne := fun _ _ _ => .ok ⟨true, .oid "507f1f77bcf86cd799439011"⟩
  updateOne := fun _ _ _ _ => .ok ⟨true, 1, 1, none⟩
  updateMany := fun _ _ _ _ => .ok ⟨true, 2, 2, none⟩
  countDocuments := fun _ _ _ => .ok 0

/-! ### Helper lemmas -/

theorem isValidObjectIdString_iff (s : String) :
    isValidObjectIdString s = true ↔
      (s.length = 24 ∧ ∀ c ∈ s.data, c.isDigit = true ∨ ('a' ≤ c ∧ c ≤ 'f')) := by
  have ha : Char.ofNat 97 = 'a' := by decide
  have hf : Char.ofNat 102 = 'f' := by decide
  simp only [isValidObjectIdString, ha, hf, Bool.and_eq_true, beq_iff_eq,
    List.all_eq_true, Bool.or_eq_true, decide_eq_true_eq]

theorem parseObjectId_idem (v : JsValue) :
    parseObjectId (parseObjectId v) = parseObjectId v := by
  cases v with
  | str s =>
      by_cases h : isValidObjectIdString s = true
      · simp [parseObjectId, h]
      · simp [parseObjectId, h]
  | null => rfl
  | bool b => rfl
  | num n => rfl
  | oid s => rfl
  | arr xs => rfl
  | obj fs => rfl

theorem isObjectType_processMongo (v : JsValue) (h : isObjectType v = true) :
    isObjectType (processMongoDocument v) = true := by
  cases v <;> simp_all [isObjectType, processMongoDocument]

mutual

theorem processMongoDocument_fix :
    ∀ v : JsValue, processMongoDocument (processMongoDocument v) = processMongoDocument v
  | .null => rfl
  | .bool _ => rfl
  | .num _ => rfl
  | .str _ => rfl
  | .oid _ => rfl
  | .arr xs => by
      simp only [processMongoDocument]
      rw [processMongoArr_fix xs]
  | .obj fs => by
      simp only [processMongoDocument]
      rw [processMongoObj_fix fs]

theorem processMongoArr_fix :
    ∀ xs : JsArr, processMongoArr (processMongoArr xs) = processMongoArr xs
  | .nil => rfl
  | .cons v t => by
      simp only [processMongoArr]
      rw [processMongoDocument_fix v, processMongoArr_fix t]

theorem processMongoObj_fix :
    ∀ fs : JsObj, processMongoObj (processMongoObj fs) = processMongoObj fs
  | .nil => rfl
  | .cons k v t => by
      simp only [processMongoObj]
      rw [processMongoObj_fix t]
      by_cases hk : isIdKey k = true
      · simp only [hk, if_true, parseObjectId_idem v]
      · by_cases ho : isObjectType v = true
        · simp only [hk, if_false, Bool.false_eq_true, ho, if_true,
            isObjectType_processMongo v ho, processMongoDocument_fix v]
        · simp only [hk, ho, Bool.false_eq_true, if_false]

end

theorem parseNonEmptyString_ok (s : String) (h : 1 ≤ s.length) :
    parseNonEmptyString (some (.str s)) = .ok s := by
  simp [parseNonEmptyString, h]

/-- Every run of the `try` body either returns a one-item success envelope or
throws a message; nothing else escapes it. -/
theorem callToolBody_shape (name : String) (args : JsObj) (mi : MongoInterface) :
    (∃ s t, callToolBody name args mi = .ok (textEnvelope s) t) ∨
    (∃ m t, callToolBody name args mi = .err m t) := by
  unfold callToolBody
  repeat' (first | split | dsimp only)
  all_goals first
    | exact .inl ⟨_, _, rfl⟩
    | exact .inr ⟨_, _, rfl⟩

/-! ### Claim theorems -/

/-- C3: identifier coercion turns a value into a native identifier exactly
when it is a string of 24 lowercase hexadecimal characters, leaves every
other value (non-string, native identifier, array, non-conforming string)
unchanged, and is what the normalizer applies at every key equal to `"_id"`
or ending in `"Id"`. -/
theorem coercion_exactly_on_hex24 :
    (∀ s : String,
      parseObjectId (.str s) =
        if s.length = 24 ∧ ∀ c ∈ s.data, c.isDigit = true ∨ ('a' ≤ c ∧ c ≤ 'f')
        then .oid s else .str s) ∧
    (∀ v : JsValue, (∀ s, v ≠ .str s) → parseObjectId v = v) ∧
    (∀ (k : String) (w : JsValue) (rest : JsObj), (k = "_id" ∨ strEndsWith k "Id" = true) →
      processMongoDocument (.obj (.cons k w rest)) =
        .obj (.cons k (parseObjectId w) (processMongoObj rest))) := by
  refine ⟨fun s => ?_, fun v hv => ?_, fun k w rest hk => ?_⟩
  · by_cases h : s.length = 24 ∧ ∀ c ∈ s.data, c.isDigit = true ∨ ('a' ≤ c ∧ c ≤ 'f')
    · rw [if_pos h]
      simp [parseObjectId, (isValidObjectIdString_iff s).mpr h]
    · rw [if_neg h]
      have hb : isValidObjectIdString s ≠ true := fun hc =>
        h ((isValidObjectIdString_iff s).mp hc)
      simp [parseObjectId, hb]
  · cases v with
    | str s => exact absurd rfl (hv s)
    | null => rfl
    | bool b => rfl
    | num n => rfl
    | oid s => rfl
    | arr xs => rfl
    | obj fs => rfl
  · have hid : isIdKey k = true := by
      rcases hk with h | h
      · simp [isIdKey, h]
      · simp [isIdKey, h]
    simp [processMongoDocument, processMongoObj, hid]

theorem coercion_exactly_on_hex24_witness :
    parseObjectId (.str "507f1f77bcf86cd799439011") = .oid "507f1f77bcf86cd799439011" ∧
    parseObjectId (.str "abc") = .str "abc" ∧
    parseObjectId (.arr .nil) = .arr .nil ∧
    processMongoDocument (.obj (.cons "userId" (.str "abc") .nil)) =
      .obj (.cons "userId" (.str "abc") .nil) := by
  refine ⟨?_, ?_, ?_, ?_⟩
  · exact coercion_exactly_on_hex24.1 "507f1f77bcf86cd799439011"
  · exact coercion_exactly_on_hex24.1 "abc"
  · exact coercion_exactly_on_hex24.2.1 (.arr .nil) (fun s h => by cases h)
  · exact coercion_exactly_on_hex24.2.2 "userId" (.str "abc") .nil (Or.inr (by decide))

/-- C4: the identifier normalizer is idempotent on every (arbitrarily
nested) value. -/
theorem normalize_idempotent (v : JsValue) :
    processMongoDocument (processMongoDocument v) = processMongoDocument v :=
  processMongoDocument_fix v

/-- Under an established connection, the handler returns what the body
produces, with thrown messages wrapped by the catch block. -/
theorem callTool_connected (name : String) (args : JsObj) (mi : MongoInterface)
    (st : ConnState) (hconn : ensureConnectionOk st = true) :
    callTool name args mi st =
      match callToolBody name args mi with
      | .ok env t => .envelope env t
      | .err m t => .envelope (errorEnvelope m) t := by
  simp [callTool, hconn]

/-- C1 counterexample: the catalog has no `delete_documents` and no
`drop_collection` entry, and calling either name reaches the dispatcher's
unknown-tool branch without invoking any database operation. -/
theorem catalog_missing_tools_counterexample :
    ("delete_documents" ∉ tools.map ToolDescriptor.name) ∧
    ("drop_collection" ∉ tools.map ToolDescriptor.name) ∧
    callTool "delete_documents"
        (.cons "database" (.str "d") (.cons "collection" (.str "c")
          (.cons "filter" (.obj .nil) .nil))) sampleInterface ⟨true, true⟩ =
      .envelope (errorEnvelope "Unknown tool: delete_documents") [] ∧
    callTool "drop_collection"
        (.cons "database" (.str "d") (.cons "collection" (.str "c") .nil))
        sampleInterface ⟨true, true⟩ =
      .envelope (errorEnvelope "Unknown tool: drop_collection") [] :=
  ⟨by decide, by decide, rfl, rfl⟩

/-- C1 amended: the fixed catalog contains exactly the six tools
`list_databases`, `list_collections`, `find_documents`, `insert_document`,
`update_documents`, `count_documents`, and for each of them `callTool` with
valid arguments invokes the corresponding database operation (there is no
`delete_documents` or `drop_collection` tool). -/
theorem catalog_dispatch (mi : MongoInterface) (st : ConnState) (d c : String)
    (doc qf uf : JsObj)
    (hconn : ensureConnectionOk st = true) (hd : 1 ≤ d.length) (hc : 1 ≤ c.length) :
    tools.map ToolDescriptor.name =
      ["list_databases", "list_collections", "find_documents",
       "insert_document", "update_documents", "count_documents"] ∧
    (callTool "list_databases" .nil mi st).opsInvoked = [.listDatabases] ∧
    (callTool "list_collections" (.cons "database" (.str d) .nil) mi st).opsInvoked =
      [.listCollections d] ∧
    (callTool "find_documents"
        (.cons "database" (.str d) (.cons "collection" (.str c) .nil)) mi st).opsInvoked =
      [.find d c (.obj .nil) (.num 0) (.num 10)] ∧
    (callTool "insert_document"
        (.cons "database" (.str d) (.cons "collection" (.str c)
          (.cons "document" (.obj doc) .nil))) mi st).opsInvoked =
      [.insertOne d c (processMongoDocument (.obj doc))] ∧
    (callTool "update_documents"
        (.cons "database" (.str d) (.cons "collection" (.str c)
          (.cons "filter" (.obj qf) (.cons "update" (.obj uf) .nil)))) mi st).opsInvoked =
      [.updateOne d c (processMongoDocument (.obj qf)) (processMongoDocument (.obj uf))] ∧
    (callTool "count_documents"
        (.cons "database" (.str d) (.cons "collection" (.str c) .nil)) mi st).opsInvoked =
      [.countDocuments d c (.obj .nil)] := by
  refine ⟨rfl, ?_, ?_, ?_, ?_, ?_, ?_⟩
  · rw [callTool_connected _ _ _ _ hconn]
    cases h : mi.listDatabases <;>
      simp [callToolBody, h, CallResult.opsInvoked]
  · rw [callTool_connected _ _ _ _ hconn]
    simp only [callToolBody]
    rw [show getArg (.cons "database" (.str d) .nil) "database" = some (.str d) from rfl,
      parseNonEmptyString_ok d hd]
    cases h : mi.listCollections d <;> simp [h, CallResult.opsInvoked]
  · rw [callTool_connected _ _ _ _ hconn]
    simp only [callToolBody]
    rw [show getArg (.cons "database" (.str d) (.cons "collection" (.str c) .nil)) "database" =
          some (.str d) from rfl,
      show getArg (.cons "database" (.str d) (.cons "collection" (.str c) .nil)) "collection" =
          some (.str c) from rfl,
      parseNonEmptyString_ok d hd, parseNonEmptyString_ok c hc]
    rw [show getArg (.cons "database" (.str d) (.cons "collection" (.str c) .nil)) "query" =
          none from rfl,
      show getArg (.cons "database" (.str d) (.cons "collection" (.str c) .nil)) "skip" =
          none from rfl,
      show getArg (.cons "database" (.str d) (.cons "collection" (.str c) .nil)) "limit" =
          none from rfl]
    simp only [Option.getD_none]
    rw [show processMongoDocument (JsValue.obj JsObj.nil) = JsValue.obj JsObj.nil from rfl]
    cases h : mi.find d c (.obj .nil) (.num 0) (.num 10) <;>
      simp [h, CallResult.opsInvoked]
  · rw [callTool_connected _ _ _ _ hconn]
    simp only [callToolBody]
    rw [show getArg (.cons "database" (.str d) (.cons "collection" (.str c)
            (.cons "document" (.obj doc) .nil))) "database" = some (.str d) from rfl,
      show getArg (.cons "database" (.str d) (.cons "collection" (.str c)
            (.cons "document" (.obj doc) .nil))) "collection" = some (.str c) from rfl,
      parseNonEmptyString_ok d hd, parseNonEmptyString_ok c hc]
    rw [show getArg (.cons "database" (.str d) (.cons "collection" (.str c)
            (.cons "document" (.obj doc) .nil))) "document" = some (.obj doc) from rfl]
    cases h : mi.insertOne d c (processMongoDocument (.obj doc)) <;>
      simp [parseRecord, h, CallResult.opsInvoked]
  · rw [callTool_connected _ _ _ _ hconn]
    simp only [callToolBody]
    rw [show getArg (.cons "database" (.str d) (.cons "collection" (.str c)
            (.cons "filter" (.obj qf) (.cons "update" (.obj uf) .nil)))) "database" =
          some (.str d) from rfl,
      show getArg (.cons "database" (.str d) (.cons "collection" (.str c)
            (.cons "filter" (.obj qf) (.cons "update" (.obj uf) .nil)))) "collection" =
          some (.str c) from rfl,
      parseNonEmptyString_ok d hd, parseNonEmptyString_ok c hc]
    rw [show getArg (.cons "database" (.str d) (.cons "collection" (.str c)
            (.cons "filter" (.obj qf) (.cons "update" (.obj uf) .nil)))) "filter" =
          some (.obj qf) from rfl,
      show getArg (.cons "database" (.str d) (.cons "collection" (.str c)
            (.cons "filter" (.obj qf) (.cons "update" (.obj uf) .nil)))) "update" =
          some (.obj uf) from rfl,
      show getArg (.cons "database" (.str d) (.cons "collection" (.str c)
            (.cons "filter" (.obj qf) (.cons "update" (.obj uf) .nil)))) "updateMany" =
          none from rfl]
    cases h : mi.updateOne d c (processMongoDocument (.obj qf)) (processMongoDocument (.obj uf)) <;>
      simp [truthy, h, CallResult.opsInvoked]
  · rw [callTool_connected _ _ _ _ hconn]
    simp only [callToolBody]
    rw [show getArg (.cons "database" (.str d) (.cons "collection" (.str c) .nil)) "database" =
          some (.str d) from rfl,
      show getArg (.cons "database" (.str d) (.cons "collection" (.str c) .nil)) "collection" =
          some (.str c) from rfl,
      parseNonEmptyString_ok d hd, parseNonEmptyString_ok c hc]
    rw [show getArg (.cons "database" (.str d) (.cons "collection" (.str c) .nil)) "filter" =
          none from rfl]
    simp only [Option.getD_none]
    rw [show processMongoDocument (JsValue.obj JsObj.nil) = JsValue.obj JsObj.nil from rfl]
    cases h : mi.countDocuments d c (.obj .nil) <;>
      simp [h, CallResult.opsInvoked]

theorem catalog_dispatch_witness :
    (callTool "find_documents"
        (.cons "database" (.str "d") (.cons "collection" (.str "c") .nil))
        sampleInterface ⟨true, true⟩).opsInvoked =
      [.find "d" "c" (.obj .nil) (.num 0) (.num 10)] :=
  (catalog_dispatch sampleInterface ⟨true, true⟩ "d" "c" .nil .nil .nil
    rfl (by decide) (by decide)).2.2.2.1

/-- C2 counterexample: a tool call arriving while the connection state is
down does not produce an `isError` envelope; the `NotConnectedError` is
raised past the dispatcher boundary (`ensureConnection()` runs before the
`try` block). -/
theorem not_connected_raises_counterexample :
    callTool "list_databases" .nil sampleInterface ⟨false, true⟩ =
      .raised notConnectedMessage ∧
    ∀ env t, callTool "list_databases" .nil sampleInterface ⟨false, true⟩ ≠
      .envelope env t :=
  ⟨rfl, fun _ _ h => CallResult.noConfusion h⟩

/-- C2 amended: while disconnected, every tool call raises the
not-connected error past the dispatcher boundary instead of returning an
envelope; once the connection check passes, every call — any name, any
arguments, any driver outcome — returns an envelope and never raises. -/
theorem connection_gate (name : String) (args : JsObj) (mi : MongoInterface)
    (st : ConnState) :
    (ensureConnectionOk st = false →
      callTool name args mi st = .raised notConnectedMessage) ∧
    (ensureConnectionOk st = true →
      ∃ env t, callTool name args mi st = .envelope env t) := by
  constructor
  · intro h
    simp [callTool, h]
  · intro h
    rw [callTool_connected _ _ _ _ h]
    rcases callToolBody_shape name args mi with ⟨s, t, hb⟩ | ⟨m, t, hb⟩
    · exact ⟨textEnvelope s, t, by rw [hb]⟩
    · exact ⟨errorEnvelope m, t, by rw [hb]⟩

theorem connection_gate_witness :
    callTool "list_databases" .nil sampleInterface ⟨false, true⟩ =
      .raised notConnectedMessage ∧
    ∃ env t, callTool "list_databases" .nil sampleInterface ⟨true, true⟩ =
      .envelope env t :=
  ⟨(connection_gate "list_databases" .nil sampleInterface ⟨false, true⟩).1 rfl,
   (connection_gate "list_databases" .nil sampleInterface ⟨true, true⟩).2 rfl⟩

/-- C5: with the connection established, every name outside the catalog
yields an `isError` envelope whose underlying message is
`"Unknown tool: <name>"` (surfaced with the catch block's `"Error: "`
prefix), and no database operation is invoked. -/
theorem unknown_tool_error (name : String) (args : JsObj) (mi : MongoInterface)
    (st : ConnState) (hconn : ensureConnectionOk st = true)
    (h : name ∉ tools.map ToolDescriptor.name) :
    callTool name args mi st =
      .envelope (errorEnvelope ("Unknown tool: " ++ name)) [] := by
  simp only [tools, List.map, List.mem_cons, List.not_mem_nil, or_false, not_or] at h
  have hb : callToolBody name args mi = .err ("Unknown tool: " ++ name) [] := by
    rw [callToolBody.eq_def]
    split
    all_goals first
      | rfl
      | simp_all
  rw [callTool_connected _ _ _ _ hconn, hb]

theorem unknown_tool_error_witness :
    callTool "unknown_tool" .nil sampleInterface ⟨true, true⟩ =
      .envelope (errorEnvelope "Unknown tool: unknown_tool") [] := by
  have h := unknown_tool_error "unknown_tool" .nil sampleInterface ⟨true, true⟩
    rfl (by decide)
  simpa using h

set_option maxRecDepth 4000 in
/-- C6 counterexample: a call missing `database` (on `list_collections`) and a
call missing `collection` (on `find_documents`) produce the very same error
envelope — zod validates the bare value, so the message is one fixed string
that names neither parameter and therefore cannot identify which one
failed. -/
theorem validation_message_counterexample :
    callTool "list_collections" .nil sampleInterface ⟨true, true⟩ =
      .envelope (errorEnvelope (zodInvalidTypeMessage "string" "undefined" "Required")) [] ∧
    callTool "find_documents" (.cons "database" (.str "d") .nil) sampleInterface ⟨true, true⟩ =
      .envelope (errorEnvelope (zodInvalidTypeMessage "string" "undefined" "Required")) [] ∧
    charsHaveInfix (zodInvalidTypeMessage "string" "undefined" "Required").data
      "database".data = false ∧
    charsHaveInfix (zodInvalidTypeMessage "string" "undefined" "Required").data
      "collection".data = false :=
  ⟨rfl, rfl, by decide, by decide⟩

/-- C6 amended: for every tool call — connection established — that omits an
argument the dispatcher validates (`database` on all five tools taking it,
`collection` on the four taking it, `document` on `insert_document`) or
passes an empty string where a non-empty string is required, the result is
an `isError` envelope carrying zod's validation message and no database
operation is attempted before the validation failure; the message does not
identify the failing parameter — the bare value is parsed, so the identical
fixed message arises whichever parameter is missing.  `update_documents`'
required `filter` and `update` are never validated: omitting them produces
no validation error and the update operation is still attempted. -/
theorem validation_failure_no_db (mi : MongoInterface) (st : ConnState) (d c : String)
    (hconn : ensureConnectionOk st = true) (hd : 1 ≤ d.length) (hc : 1 ≤ c.length) :
    (∀ args : JsObj, getArg args "database" = none →
      ∀ tool ∈ ["list_collections", "find_documents", "insert_document",
          "update_documents", "count_documents"],
        callTool tool args mi st =
          .envelope (errorEnvelope (zodInvalidTypeMessage "string" "undefined" "Required")) []) ∧
    (∀ args : JsObj, getArg args "database" = some (.str "") →
      ∀ tool ∈ ["list_collections", "find_documents", "insert_document",
          "update_documents", "count_documents"],
        callTool tool args mi st =
          .envelope (errorEnvelope zodTooSmallStringMessage) []) ∧
    (∀ args : JsObj, getArg args "database" = some (.str d) →
      getArg args "collection" = none →
      ∀ tool ∈ ["find_documents", "insert_document", "update_documents", "count_documents"],
        callTool tool args mi st =
          .envelope (errorEnvelope (zodInvalidTypeMessage "string" "undefined" "Required")) []) ∧
    (∀ args : JsObj, getArg args "database" = some (.str d) →
      getArg args "collection" = some (.str "") →
      ∀ tool ∈ ["find_documents", "insert_document", "update_documents", "count_documents"],
        callTool tool args mi st =
          .envelope (errorEnvelope zodTooSmallStringMessage) []) ∧
    (∀ args : JsObj, getArg args "database" = some (.str d) →
      getArg args "collection" = some (.str c) →
      getArg args "document" = none →
      callTool "insert_document" args mi st =
        .envelope (errorEnvelope (zodInvalidTypeMessage "object" "undefined" "Required")) []) ∧
    (∀ args : JsObj, getArg args "database" = some (.str d) →
      getArg args "collection" = some (.str c) →
      getArg args "filter" = none → getArg args "update" = none →
      getArg args "updateMany" = none →
      (callTool "update_documents" args mi st).opsInvoked =
        [.updateOne d c .null .null]) := by
  refine ⟨?_, ?_, ?_, ?_, ?_, ?_⟩
  · intro args h tool htool
    simp only [List.mem_cons, List.not_mem_nil, or_false] at htool
    rcases htool with rfl | rfl | rfl | rfl | rfl <;>
      (rw [callTool_connected _ _ _ _ hconn]; simp [callToolBody, h, parseNonEmptyString])
  · intro args h tool htool
    simp only [List.mem_cons, List.not_mem_nil, or_false] at htool
    rcases htool with rfl | rfl | rfl | rfl | rfl <;>
      (rw [callTool_connected _ _ _ _ hconn]; simp [callToolBody, h, parseNonEmptyString])
  · intro args h1 h2 tool htool
    simp only [List.mem_cons, List.not_mem_nil, or_false] at htool
    rcases htool with rfl | rfl | rfl | rfl <;>
      (rw [callTool_connected _ _ _ _ hconn];
       simp [callToolBody, h1, h2, parseNonEmptyString, hd])
  · intro args h1 h2 tool htool
    simp only [List.mem_cons, List.not_mem_nil, or_false] at htool
    rcases htool with rfl | rfl | rfl | rfl <;>
      (rw [callTool_connected _ _ _ _ hconn];
       simp [callToolBody, h1, h2, parseNonEmptyString, hd])
  · intro args h1 h2 h3
    rw [callTool_connected _ _ _ _ hconn]
    simp [callToolBody, h1, h2, h3, parseNonEmptyString, parseRecord, hd, hc]
  · intro args h1 h2 h3 h4 h5
    rw [callTool_connected _ _ _ _ hconn]
    simp only [callToolBody]
    rw [h1, h2, parseNonEmptyString_ok d hd, parseNonEmptyString_ok c hc, h3, h4, h5]
    simp only [Option.getD_none]
    rw [show processMongoDocument JsValue.null = JsValue.null from rfl]
    simp only [truthy, Bool.false_eq_true, if_false]
    cases hres : mi.updateOne d c .null .null <;>
      simp [hres, CallResult.opsInvoked]

theorem validation_failure_no_db_witness :
    callTool "list_collections" .nil sampleInterface ⟨true, true⟩ =
      .envelope (errorEnvelope (zodInvalidTypeMessage "string" "undefined" "Required")) [] ∧
    callTool "list_collections" (.cons "database" (.str "") .nil) sampleInterface ⟨true, true⟩ =
      .envelope (errorEnvelope zodTooSmallStringMessage) [] ∧
    callTool "count_documents" (.cons "database" (.str "d") .nil) sampleInterface ⟨true, true⟩ =
      .envelope (errorEnvelope (zodInvalidTypeMessage "string" "undefined" "Required")) [] ∧
    callTool "find_documents"
        (.cons "database" (.str "d") (.cons "collection" (.str "") .nil))
        sampleInterface ⟨true, true⟩ =
      .envelope (errorEnvelope zodTooSmallStringMessage) [] ∧
    callTool "insert_document"
        (.cons "database" (.str "d") (.cons "collection" (.str "c") .nil))
        sampleInterface ⟨true, true⟩ =
      .envelope (errorEnvelope (zodInvalidTypeMessage "object" "undefined" "Required")) [] ∧
    (callTool "update_documents"
        (.cons "database" (.str "d") (.cons "collection" (.str "c") .nil))
        sampleInterface ⟨true, true⟩).opsInvoked =
      [.updateOne "d" "c" .null .null] :=
  ⟨(validation_failure_no_db sampleInterface ⟨true, true⟩ "d" "c" rfl (by decide)
      (by decide)).1 .nil rfl "list_collections" (by decide),
   (validation_failure_no_db sampleInterface ⟨true, true⟩ "d" "c" rfl (by decide)
      (by decide)).2.1 (.cons "database" (.str "") .nil) rfl "list_collections" (by decide),
   (validation_failure_no_db sampleInterface ⟨true, true⟩ "d" "c" rfl (by decide)
      (by decide)).2.2.1 (.cons "database" (.str "d") .nil) rfl rfl
      "count_documents" (by decide),
   (validation_failure_no_db sampleInterface ⟨true, true⟩ "d" "c" rfl (by decide)
      (by decide)).2.2.2.1 (.cons "database" (.str "d") (.cons "collection" (.str "") .nil))
      rfl rfl "find_documents" (by decide),
   (validation_failure_no_db sampleInterface ⟨true, true⟩ "d" "c" rfl (by decide)
      (by decide)).2.2.2.2.1 (.cons "database" (.str "d") (.cons "collection" (.str "c") .nil))
      rfl rfl rfl,
   (validation_failure_no_db sampleInterface ⟨true, true⟩ "d" "c" rfl (by decide)
      (by decide)).2.2.2.2.2 (.cons "database" (.str "d") (.cons "collection" (.str "c") .nil))
      rfl rfl rfl rfl rfl⟩

/-- C7: a `find_documents` call with valid `database` and `collection` and no
`query`, `limit`, `skip` invokes the read with filter `\x7b\x7d`, skip `0` and
limit `10`. -/
theorem find_documents_defaults (mi : MongoInterface) (st : ConnState) (d c : String)
    (hconn : ensureConnectionOk st = true) (hd : 1 ≤ d.length) (hc : 1 ≤ c.length) :
    (callTool "find_documents"
        (.cons "database" (.str d) (.cons "collection" (.str c) .nil)) mi st).opsInvoked =
      [.find d c (.obj .nil) (.num 0) (.num 10)] := by
  rw [callTool_connected _ _ _ _ hconn]
  simp only [callToolBody]
  rw [show getArg (.cons "database" (.str d) (.cons "collection" (.str c) .nil)) "database" =
        some (.str d) from rfl,
    show getArg (.cons "database" (.str d) (.cons "collection" (.str c) .nil)) "collection" =
        some (.str c) from rfl,
    parseNonEmptyString_ok d hd, parseNonEmptyString_ok c hc]
  rw [show getArg (.cons "database" (.str d) (.cons "collection" (.str c) .nil)) "query" =
        none from rfl,
    show getArg (.cons "database" (.str d) (.cons "collection" (.str c) .nil)) "skip" =
        none from rfl,
    show getArg (.cons "database" (.str d) (.cons "collection" (.str c) .nil)) "limit" =
        none from rfl]
  simp only [Option.getD_none]
  rw [show processMongoDocument (JsValue.obj JsObj.nil) = JsValue.obj JsObj.nil from rfl]
  cases h : mi.find d c (.obj .nil) (.num 0) (.num 10) <;>
    simp [h, CallResult.opsInvoked]

theorem find_documents_defaults_witness :
    (callTool "find_documents"
        (.cons "database" (.str "db1") (.cons "collection" (.str "c1") .nil))
        sampleInterface ⟨true, true⟩).opsInvoked =
      [.find "db1" "c1" (.obj .nil) (.num 0) (.num 10)] :=
  find_documents_defaults sampleInterface ⟨true, true⟩ "db1" "c1" rfl (by decide) (by decide)

/-- C8: a valid `update_documents` call invokes the multi-document update
exactly when `updateMany` is `true`, and the single-document update when it
is `false` or omitted — in each case on the normalized filter and update. -/
theorem update_documents_flag (mi : MongoInterface) (st : ConnState) (d c : String)
    (qf uf : JsObj)
    (hconn : ensureConnectionOk st = true) (hd : 1 ≤ d.length) (hc : 1 ≤ c.length) :
    ((callTool "update_documents"
        (.cons "database" (.str d) (.cons "collection" (.str c)
          (.cons "filter" (.obj qf) (.cons "update" (.obj uf)
            (.cons "updateMany" (.bool true) .nil))))) mi st).opsInvoked =
      [.updateMany d c (processMongoDocument (.obj qf)) (processMongoDocument (.obj uf))]) ∧
    ((callTool "update_documents"
        (.cons "database" (.str d) (.cons "collection" (.str c)
          (.cons "filter" (.obj qf) (.cons "update" (.obj uf)
            (.cons "updateMany" (.bool false) .nil))))) mi st).opsInvoked =
      [.updateOne d c (processMongoDocument (.obj qf)) (processMongoDocument (.obj uf))]) ∧
    ((callTool "update_documents"
        (.cons "database" (.str d) (.cons "collection" (.str c)
          (.cons "filter" (.obj qf) (.cons "update" (.obj uf) .nil)))) mi st).opsInvoked =
      [.updateOne d c (processMongoDocument (.obj qf)) (processMongoDocument (.obj uf))]) := by
  refine ⟨?_, ?_, ?_⟩
  · rw [callTool_connected _ _ _ _ hconn]
    simp only [callToolBody]
    rw [show getArg (.cons "database" (.str d) (.cons "collection" (.str c)
          (.cons "filter" (.obj qf) (.cons "update" (.obj uf)
            (.cons "updateMany" (.bool true) .nil))))) "database" = some (.str d) from rfl,
      show getArg (.cons "database" (.str d) (.cons "collection" (.str c)
          (.cons "filter" (.obj qf) (.cons "update" (.obj uf)
            (.cons "updateMany" (.bool true) .nil))))) "collection" = some (.str c) from rfl,
      parseNonEmptyString_ok d hd, parseNonEmptyString_ok c hc,
      show getArg (.cons "database" (.str d) (.cons "collection" (.str c)
          (.cons "filter" (.obj qf) (.cons "update" (.obj uf)
            (.cons "updateMany" (.bool true) .nil))))) "filter" = some (.obj qf) from rfl,
      show getArg (.cons "database" (.str d) (.cons "collection" (.str c)
          (.cons "filter" (.obj qf) (.cons "update" (.obj uf)
            (.cons "updateMany" (.bool true) .nil))))) "update" = some (.obj uf) from rfl,
      show getArg (.cons "database" (.str d) (.cons "collection" (.str c)
          (.cons "filter" (.obj qf) (.cons "update" (.obj uf)
            (.cons "updateMany" (.bool true) .nil))))) "updateMany" =
        some (.bool true) from rfl]
    simp only [Option.getD_some, truthy, if_true]
    cases h : mi.updateMany d c (processMongoDocument (.obj qf))
        (processMongoDocument (.obj uf)) <;>
      simp [h, CallResult.opsInvoked]
  · rw [callTool_connected _ _ _ _ hconn]
    simp only [callToolBody]
    rw [show getArg (.cons "database" (.str d) (.cons "collection" (.str c)
          (.cons "filter" (.obj qf) (.cons "update" (.obj uf)
            (.cons "updateMany" (.bool false) .nil))))) "database" = some (.str d) from rfl,
      show getArg (.cons "database" (.str d) (.cons "collection" (.str c)
          (.cons "filter" (.obj qf) (.cons "update" (.obj uf)
            (.cons "updateMany" (.bool false) .nil))))) "collection" = some (.str c) from rfl,
      parseNonEmptyString_ok d hd, parseNonEmptyString_ok c hc,
      show getArg (.cons "database" (.str d) (.cons "collection" (.str c)
          (.cons "filter" (.obj qf) (.cons "update" (.obj uf)
            (.cons "updateMany" (.bool false) .nil))))) "filter" = some (.obj qf) from rfl,
      show getArg (.cons "database" (.str d) (.cons "collection" (.str c)
          (.cons "filter" (.obj qf) (.cons "update" (.obj uf)
            (.cons "updateMany" (.bool false) .nil))))) "update" = some (.obj uf) from rfl,
      show getArg (.cons "database" (.str d) (.cons "collection" (.str c)
          (.cons "filter" (.obj qf) (.cons "update" (.obj uf)
            (.cons "updateMany" (.bool false) .nil))))) "updateMany" =
        some (.bool false) from rfl]
    simp only [Option.getD_some, truthy, if_false]
    cases h : mi.updateOne d c (processMongoDocument (.obj qf))
        (processMongoDocument (.obj uf)) <;>
      simp [h, CallResult.opsInvoked]
  · rw [callTool_connected _ _ _ _ hconn]
    simp only [callToolBody]
    rw [show getArg (.cons "database" (.str d) (.cons "collection" (.str c)
          (.cons "filter" (.obj qf) (.cons "update" (.obj uf) .nil)))) "database" =
        some (.str d) from rfl,
      show getArg (.cons "database" (.str d) (.cons "collection" (.str c)
          (.cons "filter" (.obj qf) (.cons "update" (.obj uf) .nil)))) "collection" =
        some (.str c) from rfl,
      parseNonEmptyString_ok d hd, parseNonEmptyString_ok c hc,
      show getArg (.cons "database" (.str d) (.cons "collection" (.str c)
          (.cons "filter" (.obj qf) (.cons "update" (.obj uf) .nil)))) "filter" =
        some (.obj qf) from rfl,
      show getArg (.cons "database" (.str d) (.cons "collection" (.str c)
          (.cons "filter" (.obj qf) (.cons "update" (.obj uf) .nil)))) "update" =
        some (.obj uf) from rfl,
      show getArg (.cons "database" (.str d) (.cons "collection" (.str c)
          (.cons "filter" (.obj qf) (.cons "update" (.obj uf) .nil)))) "updateMany" =
        none from rfl]
    simp only [Option.getD_some, Option.getD_none, truthy, if_false]
    cases h : mi.updateOne d c (processMongoDocument (.obj qf))
        (processMongoDocument (.obj uf)) <;>
      simp [h, CallResult.opsInvoked]

theorem update_documents_flag_witness :
    ((callTool "update_documents"
        (.cons "database" (.str "d") (.cons "collection" (.str "c")
          (.cons "filter" (.obj .nil) (.cons "update" (.obj .nil)
            (.cons "updateMany" (.bool true) .nil))))) sampleInterface ⟨true, true⟩).opsInvoked =
      [.updateMany "d" "c" (.obj .nil) (.obj .nil)]) ∧
    ((callTool "update_documents"
        (.cons "database" (.str "d") (.cons "collection" (.str "c")
          (.cons "filter" (.obj .nil) (.cons "update" (.obj .nil) .nil))))
        sampleInterface ⟨true, true⟩).opsInvoked =
      [.updateOne "d" "c" (.obj .nil) (.obj .nil)]) :=
  ⟨(update_documents_flag sampleInterface ⟨true, true⟩ "d" "c" .nil .nil
      rfl (by decide) (by decide)).1,
   (update_documents_flag sampleInterface ⟨true, true⟩ "d" "c" .nil .nil
      rfl (by decide) (by decide)).2.2⟩

/-- C9: whenever the handler returns an envelope — success or error — its
content sequence is non-empty. -/
theorem envelope_content_nonempty (name : String) (args : JsObj) (mi : MongoInterface)
    (st : ConnState) (env : ResponseEnvelope) (t : List DbOp)
    (h : callTool name args mi st = .envelope env t) :
    env.content ≠ [] := by
  cases hc : ensureConnectionOk st
  · simp [callTool, hc] at h
  · rw [callTool_connected _ _ _ _ hc] at h
    rcases callToolBody_shape name args mi with ⟨s, t', hb⟩ | ⟨m, t', hb⟩ <;> rw [hb] at h
    · injection h with h1 h2
      rw [← h1]
      simp [textEnvelope]
    · injection h with h1 h2
      rw [← h1]
      simp [errorEnvelope]

theorem envelope_content_nonempty_witness :
    (errorEnvelope "Unknown tool: unknown_tool").content ≠ [] :=
  envelope_content_nonempty "unknown_tool" .nil sampleInterface ⟨true, true⟩
    (errorEnvelope "Unknown tool: unknown_tool") [] rfl

/-- C10: every error envelope the dispatcher produces has exactly one content
item, whose text is `"Error: "` followed by the underlying failure's
message (the message thrown inside the `try` body). -/
theorem error_envelope_format (name : String) (args : JsObj) (mi : MongoInterface)
    (st : ConnState) (env : ResponseEnvelope) (t : List DbOp)
    (h : callTool name args mi st = .envelope env t)
    (he : env.isError = some true) :
    ∃ msg, callToolBody name args mi = .err msg t ∧
      env.content = [⟨"text", "Error: " ++ msg⟩] := by
  cases hc : ensureConnectionOk st
  · simp [callTool, hc] at h
  · rw [callTool_connected _ _ _ _ hc] at h
    rcases callToolBody_shape name args mi with ⟨s, t', hb⟩ | ⟨m, t', hb⟩ <;> rw [hb] at h
    · injection h with h1 h2
      rw [← h1] at he
      simp [textEnvelope] at he
    · injection h with h1 h2
      subst h2
      refine ⟨m, hb, ?_⟩
      rw [← h1]
      rfl

theorem error_envelope_format_witness :
    ∃ msg, callToolBody "unknown_tool" .nil sampleInterface = .err msg [] ∧
      (errorEnvelope "Unknown tool: unknown_tool").content = [⟨"text", "Error: " ++ msg⟩] :=
  error_envelope_format "unknown_tool" .nil sampleInterface ⟨true, true⟩
    (errorEnvelope "Unknown tool: unknown_tool") [] rfl rfl

end MongoMcp
